/-
Verification of the runner-specification resolution and instance-lifecycle
pipeline of the garm GCP provider (packages `config`, `internal/spec`,
`internal/client`, `internal/util`, `provider`).

The Go code is shallowly embedded: Go pointers to scalars (`*string`,
`*bool`, `*int64`) become `Option`, Go maps become association lists, Go
errors become an explicit `GoError` tree (with `fmt.Errorf("...%w")`
modelled as `GoError.wrap`), and the remote GCP client interface becomes a
record of result-valued functions (`GcpEnv`).  A Go run-time panic (nil
pointer dereference, index out of range) is modelled as an explicit
`GoResult.panic` outcome so that crashing executions stay distinguishable
from error returns.
-/
import Mathlib

namespace GarmGcp

/-! ## Errors

Go errors.  `apiError` models `*apierror.APIError` (carrying the HTTP
status code), `simple` models any other leaf error (`fmt.Errorf` without
`%w`, or library errors), and `wrap` models `fmt.Errorf("prefix: %w", err)`.
-/

inductive GoError where
  | apiError (httpCode : Int) (msg : String)
  | simple (msg : String)
  | wrap (pre : String) (cause : GoError)
deriving Repr, DecidableEq

/-- `err.Error()`: the rendered message of a Go error
(`fmt.Errorf("prefix: %w", e)` renders as the prefix followed by the
message of `e`). -/
def GoError.message : GoError → String
  | .apiError _ m => m
  | .simple m => m
  | .wrap p c => p ++ c.message

/-- Outcome of a Go function returning `(T, error)`, with run-time panics
(nil-pointer dereference, index out of range) kept as a separate outcome. -/
inductive GoResult (α : Type) where
  | ok (val : α)
  | err (e : GoError)
  | panic (msg : String)
deriving Repr, DecidableEq

/-! ## Data model: computepb messages (the fields this repository uses)

Proto pointer fields (`*string`, `*bool`, `*int64`) are `Option`s; a field
written with `proto.String s` is `some s` even when `s` is empty.
-/

/-- `computepb.ServiceAccount` (the fields used here). -/
structure ServiceAccount where
  email : Option String
  scopes : List String
deriving Repr, DecidableEq

/-- `computepb.AttachedDiskInitializeParams` (the fields used here). -/
structure AttachedDiskInitializeParams where
  diskSizeGb : Option Int
  labels : List (String × String)
  sourceImage : Option String
  sourceSnapshot : Option String
  diskType : Option String
deriving Repr, DecidableEq

/-- `computepb.AttachedDisk` (the fields used here). -/
structure AttachedDisk where
  boot : Option Bool
  initializeParams : Option AttachedDiskInitializeParams
  autoDelete : Option Bool
  architecture : Option String
deriving Repr, DecidableEq

/-- `computepb.Items` (one metadata key/value item). -/
structure Items where
  key : Option String
  value : Option String
deriving Repr, DecidableEq

/-- `computepb.Metadata`. -/
structure Metadata where
  items : List Items
deriving Repr, DecidableEq

/-- `computepb.AccessConfig` (the fields used here). -/
structure AccessConfig where
  type : Option String
deriving Repr, DecidableEq

/-- `computepb.NetworkInterface` (the fields used here).  A Go nil slice of
access configs is the empty list. -/
structure NetworkInterface where
  network : Option String
  nicType : Option String
  accessConfigs : List AccessConfig
  subnetwork : Option String
deriving Repr, DecidableEq

/-- `computepb.DisplayDevice`. -/
structure DisplayDevice where
  enableDisplay : Option Bool
deriving Repr, DecidableEq

/-- `computepb.ShieldedInstanceConfig`. -/
structure ShieldedInstanceConfig where
  enableSecureBoot : Option Bool
  enableVtpm : Option Bool
  enableIntegrityMonitoring : Option Bool
deriving Repr, DecidableEq

/-- `computepb.Tags`. -/
structure Tags where
  items : List String
deriving Repr, DecidableEq

/-- `computepb.Instance` (the fields this repository reads or writes). -/
structure Instance where
  name : Option String
  machineType : Option String
  disks : List AttachedDisk
  displayDevice : Option DisplayDevice
  networkInterfaces : List NetworkInterface
  metadata : Option Metadata
  labels : List (String × String)
  tags : Option Tags
  serviceAccounts : List ServiceAccount
  shieldedInstanceConfig : Option ShieldedInstanceConfig
  status : Option String
deriving Repr, DecidableEq

/-- `params.ProviderInstance` (the fields this repository sets).  The
status is the `params.InstanceStatus` string (`"running"`, `"stopped"`,
`"unknown"`). -/
structure ProviderInstance where
  providerID : String
  name : String
  osType : String
  osArch : String
  status : String
deriving Repr, DecidableEq

/-- Go map lookup `m[k]` on a `map[string]string`: the zero value `""`
when the key is absent. -/
def lookupLabel (m : List (String × String)) (k : String) : String :=
  match m.find? (fun p => p.1 == k) with
  | some p => p.2
  | none => ""

/-! ## internal/util/util.go -/

/-- `util.GetMachineType`. -/
def GetMachineType (zone flavor : String) : String :=
  "zones/" ++ zone ++ "/machineTypes/" ++ flavor

/-- `util.GetInstanceName`: lower-cases the name (`strings.ToLower`,
character-wise lower-casing, written over the character list so that it
reduces definitionally). -/
def GetInstanceName (name : String) : String :=
  ⟨name.data.map Char.toLower⟩

/-- The loop body of `util.getNameForInstance`: the first metadata item
whose key is `"runner_name"` and whose value pointer is non-nil (an item
with the right key but a nil value is skipped, the loop continues). -/
def findRunnerName : List Items → Option String
  | [] => none
  | it :: rest =>
    if it.key == some "runner_name" then
      match it.value with
      | some v => some v
      | none => findRunnerName rest
    else findRunnerName rest

/-- `util.getNameForInstance` on a non-nil instance (the nil-instance
check is performed by the caller's embedding): prefers the `runner_name`
metadata item, falling back to the raw instance name (`""` when the name
pointer is nil). -/
def getNameForInstance (inst : Instance) : String :=
  let name := inst.name.getD ""
  match inst.metadata with
  | none => name
  | some md =>
    match findRunnerName md.items with
    | some v => v
    | none => name

/-- `inst.GetStatus()`: the proto getter returns the zero value `""` when
the status pointer is nil. -/
def getStatus (inst : Instance) : String :=
  inst.status.getD ""

/-- The `switch gcpInstance.GetStatus()` of `util.GcpInstanceToParamsInstance`
(a Go `switch` with multiple values per case is sequential equality
testing). -/
def mapStatus (s : String) : String :=
  if s == "RUNNING" || s == "STAGING" || s == "PROVISIONING" then "running"
  else if s == "STOPPING" || s == "TERMINATED" || s == "SUSPENDED" then "stopped"
  else "unknown"

/-- `util.GcpInstanceToParamsInstance`.  The argument is the Go pointer
(`none` = nil).  The `OSArch` field is built from
`*gcpInstance.Disks[0].Architecture`: indexing an empty slice or
dereferencing a nil architecture pointer panics at run time, modelled by
`GoResult.panic`. -/
def GcpInstanceToParamsInstance (gcpInstance : Option Instance) :
    GoResult ProviderInstance :=
  match gcpInstance with
  | none => .err (.simple "instance ID is nil")
  | some inst =>
    -- getNameForInstance only errors on a nil instance, impossible here
    let name := getNameForInstance inst
    match inst.name with
    | none => .err (.simple "instance name is nil")
    | some rawName =>
      match inst.disks with
      | [] => .panic "runtime error: index out of range"
      | d :: _ =>
        match d.architecture with
        | none => .panic "runtime error: invalid memory address or nil pointer dereference"
        | some arch =>
          .ok { providerID := GetInstanceName rawName
                name := name
                osType := lookupLabel inst.labels "ostype"
                osArch := arch
                status := mapStatus (getStatus inst) }

/-! ## config/config.go -/

/-- `config.Config` (the TOML provider configuration). -/
structure Config where
  projectId : String
  zone : String
  credentialsFile : String
  networkID : String
  subnetworkID : String
  externalIPAccess : Bool
deriving Repr, DecidableEq

/-! ## internal/spec/spec.go: the extra-specs overlay -/

/-- `cloudconfig.CloudConfigSpec` (embedded in `extraSpecs`; carried
through to the external renderer, untouched by the merge). -/
structure CloudConfigSpec where
  runnerInstallTemplate : String
  preInstallScripts : List (String × String)
  extraContext : List (String × String)
deriving Repr, DecidableEq

/-- `spec.extraSpecs`: the typed per-request overlay decoded from the
extra-specs JSON blob.  Go `*bool` tri-states are `Option Bool`; absent
scalar fields decode to their zero values. -/
structure extraSpecs where
  diskSize : Int
  diskType : String
  displayDevice : Bool
  networkID : String
  subnetworkID : String
  nicType : String
  customLabels : List (String × String)
  networkTags : List String
  serviceAccounts : List ServiceAccount
  sourceSnapshot : String
  sshKeys : List String
  enableBootDebug : Option Bool
  disableUpdates : Option Bool
  enableSecureBoot : Option Bool
  enableVTPM : Option Bool
  enableIntegrityMonitoring : Option Bool
  cloudConfigSpec : CloudConfigSpec
deriving Repr, DecidableEq

/-- The zero `extraSpecs` value (`&extraSpecs{}` in Go): every field
unset / zero / empty / nil. -/
def emptyExtraSpecs : extraSpecs :=
  { diskSize := 0, diskType := "", displayDevice := false, networkID := ""
    subnetworkID := "", nicType := "", customLabels := [], networkTags := []
    serviceAccounts := [], sourceSnapshot := "", sshKeys := []
    enableBootDebug := none, disableUpdates := none, enableSecureBoot := none
    enableVTPM := none, enableIntegrityMonitoring := none
    cloudConfigSpec := { runnerInstallTemplate := "", preInstallScripts := []
                         extraContext := [] } }

/-- The raw extra-specs byte blob of the bootstrap request, classified by
how JSON decoding and schema validation treat it (the bytes themselves are
opaque to this development):
* `empty`: a zero-length blob;
* `malformed`: non-empty bytes that are not a well-formed JSON document;
* `badSchema`: a well-formed JSON document that violates the generated
  schema, with the validator's message list;
* `valid`: a well-formed JSON document conforming to the schema, decoding
  to the given overlay. -/
inductive RawBlob where
  | empty
  | malformed (msg : String)
  | badSchema (msg : String)
  | valid (overlay : extraSpecs)
deriving Repr, DecidableEq

/-- `len(blob)`: only the zero-length blob has length 0 (any JSON
document, well- or ill-formed, is at least one byte). -/
def RawBlob.isEmpty : RawBlob → Bool
  | .empty => true
  | _ => false

/-- `spec.jsonSchemaValidation`.  `gojsonschema.Validate` first
JSON-decodes the document bytes: decoding a zero-length or malformed
document fails with a decode error (`EOF` for empty input), which the
function wraps as `failed to validate schema`; a document that decodes but
violates the schema yields `schema validation failed` with the
validator's messages. -/
def jsonSchemaValidation (schema : RawBlob) : Option GoError :=
  match schema with
  | .empty => some (.wrap "failed to validate schema: " (.simple "EOF"))
  | .malformed msg => some (.wrap "failed to validate schema: " (.simple msg))
  | .badSchema msg => some (.simple ("schema validation failed: " ++ msg))
  | .valid _ => none

/-- `regexp.MatchString` for `customLabelKeyRegex`
(`^\p{Ll}[\p{Ll}0-9_-]{0,62}$`): a lowercase letter followed by up to 62
characters from lowercase letters, digits, `_`, `-`.  (`\p{Ll}` is
modelled as `Char.isLower`.) -/
def matchesLabelKey (s : String) : Bool :=
  match s.data with
  | [] => false
  | c :: rest =>
    c.isLower && rest.length ≤ 62 &&
      rest.all (fun d => d.isLower || d.isDigit || d == '_' || d == '-')

/-- `regexp.MatchString` for `customLabelValueRegex`
(`^[\p{Ll}0-9_-]{0,63}$`): up to 63 characters from lowercase letters,
digits, `_`, `-`; the empty value matches. -/
def matchesLabelValue (s : String) : Bool :=
  s.data.length ≤ 63 &&
    s.data.all (fun d => d.isLower || d.isDigit || d == '_' || d == '-')

/-- `regexp.MatchString` for `networkTagRegex`
(`^[a-z][a-z0-9-]{0,61}[a-z0-9]$`). -/
def matchesNetworkTag (s : String) : Bool :=
  match s.data with
  | [] => false
  | c :: rest =>
    match rest.reverse with
    | [] => false
    | last :: midRev =>
      (97 ≤ c.toNat && c.toNat ≤ 122) &&
      midRev.length ≤ 61 &&
      midRev.all (fun d => (97 ≤ d.toNat && d.toNat ≤ 122) || d.isDigit || d == '-') &&
      ((97 ≤ last.toNat && last.toNat ≤ 122) || last.isDigit)

/-- The label-validation loop of `extraSpecs.Validate`: the first
key/value pair violating the label grammar yields an error.  (Go map
iteration order is unspecified; the association-list order stands in for
one admissible order.) -/
def validateLabels : List (String × String) → Option GoError
  | [] => none
  | (k, v) :: rest =>
    if !matchesLabelKey k then
      some (.simple ("custom label key '" ++ k ++ "' does not match requirements"))
    else if !matchesLabelValue v then
      some (.simple ("custom label value '" ++ v ++ "' does not match requirements"))
    else validateLabels rest

/-- The tag-validation loop of `extraSpecs.Validate`. -/
def validateTags : List String → Option GoError
  | [] => none
  | t :: rest =>
    if !matchesNetworkTag t then
      some (.simple ("network tag '" ++ t ++ "' does not match requirements"))
    else validateTags rest

/-- `extraSpecs.Validate`: count bounds and grammar checks for custom
labels and network tags (the regex-compilation error branches are dead:
the patterns are constants that compile). -/
def extraSpecs.Validate (e : extraSpecs) : Option GoError :=
  if e.customLabels.length > 61 then
    some (.simple "custom labels cannot exceed 61 items")
  else
    match validateLabels e.customLabels with
    | some err => some err
    | none =>
      if e.networkTags.length > 64 then
        some (.simple "network tags cannot exceed 64 items")
      else validateTags e.networkTags

/-- `spec.newExtraSpecsFromBootstrapData`: schema-validates the raw blob,
then (only for a non-empty blob) unmarshals it over the zero overlay, then
field-validates the overlay. -/
def newExtraSpecsFromBootstrapData (extraSpecsBlob : RawBlob) :
    Except GoError extraSpecs :=
  let spec0 := emptyExtraSpecs
  match jsonSchemaValidation extraSpecsBlob with
  | some err => .error (.wrap "failed to validate extra specs: " err)
  | none =>
    let spec1 :=
      if extraSpecsBlob.isEmpty then spec0
      else
        match extraSpecsBlob with
        | .valid overlay => overlay
        | _ => spec0
    match spec1.Validate with
    | some err => .error (.wrap "failed to validate extra specs: " err)
    | none => .ok spec1

/-! ## internal/spec/spec.go: the merged runner specification -/

/-- `params.BootstrapInstance.UserDataOptions`. -/
structure UserDataOptions where
  enableBootDebug : Bool
  disableUpdatesOnBoot : Bool
deriving Repr, DecidableEq

/-- `params.BootstrapInstance` (the fields this repository reads).  The
`OSType`/`OSArch` string types are plain strings (`params.Linux =
"linux"`, `params.Windows = "windows"`); the opaque tool list is kept as
an abstract string consumed only by the external tool-fetch collaborator. -/
structure BootstrapInstance where
  name : String
  flavor : String
  image : String
  osType : String
  osArch : String
  poolID : String
  extraSpecsBlob : RawBlob
  userDataOptions : UserDataOptions
deriving Repr, DecidableEq

/-- `spec.RunnerSpec`: the fully merged configuration.  `Tools` (the
resolved `params.RunnerApplicationDownload`) is opaque here: it is only
handed to the external renderer. -/
structure RunnerSpec where
  zone : String
  tools : String
  bootstrapParams : BootstrapInstance
  networkID : String
  subnetworkID : String
  controllerID : String
  nicType : String
  displayDevice : Bool
  diskSize : Int
  diskType : String
  customLabels : List (String × String)
  networkTags : List String
  serviceAccounts : List ServiceAccount
  sourceSnapshot : String
  sshKeys : String
  enableBootDebug : Bool
  disableUpdates : Bool
  enableSecureBoot : Bool
  enableVTPM : Bool
  enableIntegrityMonitoring : Bool
deriving Repr, DecidableEq

/-- `m[k] = v` on an association list standing in for a Go map: overwrite
the existing entry for `k`, or add one. -/
def setAssoc (m : List (String × String)) (k v : String) :
    List (String × String) :=
  if m.any (fun p => p.1 == k) then
    m.map (fun p => if p.1 == k then (k, v) else p)
  else m ++ [(k, v)]

/-- `maps.Copy(dst, src)`: every key/value of `src` is written into
`dst`. -/
def mapsCopy (dst src : List (String × String)) : List (String × String) :=
  src.foldl (fun d p => setAssoc d p.1 p.2) dst

/-- `RunnerSpec.MergeExtraSpecs`: the ordered sequence of guarded field
assignments of the Go method.  Each guard reads only the overlay and each
assignment overwrites a field no other assignment reads, so the sequence
is rendered as one simultaneous update (an untaken guard leaves the
field's prior value; a non-nil tri-state always overwrites).  The SSH-key
loop appends `"\n" ++ key` for each entry, in slice order, onto the
current blob. -/
def RunnerSpec.MergeExtraSpecs (r : RunnerSpec) (e : extraSpecs) : RunnerSpec :=
  { r with
    networkID := if e.networkID ≠ "" then e.networkID else r.networkID
    subnetworkID := if e.subnetworkID ≠ "" then e.subnetworkID else r.subnetworkID
    displayDevice := if e.displayDevice then e.displayDevice else r.displayDevice
    diskSize := if e.diskSize > 0 then e.diskSize else r.diskSize
    diskType := if e.diskType ≠ "" then e.diskType else r.diskType
    nicType := if e.nicType ≠ "" then e.nicType else r.nicType
    customLabels := if e.customLabels.length > 0 then
                      mapsCopy r.customLabels e.customLabels
                    else r.customLabels
    networkTags := if e.networkTags.length > 0 then e.networkTags else r.networkTags
    serviceAccounts := if e.serviceAccounts.length > 0 then
                         e.serviceAccounts
                       else r.serviceAccounts
    sourceSnapshot := if e.sourceSnapshot ≠ "" then e.sourceSnapshot else r.sourceSnapshot
    sshKeys := if e.sshKeys.length > 0 then
                 e.sshKeys.foldl (fun acc k => acc ++ "\n" ++ k) r.sshKeys
               else r.sshKeys
    enableBootDebug := e.enableBootDebug.getD r.enableBootDebug
    disableUpdates := e.disableUpdates.getD r.disableUpdates
    enableSecureBoot := e.enableSecureBoot.getD r.enableSecureBoot
    enableVTPM := e.enableVTPM.getD r.enableVTPM
    enableIntegrityMonitoring :=
      e.enableIntegrityMonitoring.getD r.enableIntegrityMonitoring }

/-- `RunnerSpec.Validate`: the mandatory-field checks, in source order. -/
def RunnerSpec.Validate (r : RunnerSpec) : Option GoError :=
  if r.zone = "" then some (.simple "missing zone")
  else if r.networkID = "" then some (.simple "missing network id")
  else if r.subnetworkID = "" then some (.simple "missing subnetwork id")
  else if r.controllerID = "" then some (.simple "missing controller id")
  else if r.nicType = "" then some (.simple "missing nic type")
  else none

/-! ## External collaborators and the remote client

The tool fetcher, the two user-data renderers
(`cloudconfig.GetCloudConfig`, `cloudconfig.GetRunnerInstallScript`), the
remote insert/get/delete/start/stop calls and the operation wait are
external; one `GcpEnv` record fixes their outcomes for a run. -/

/-- `*compute.Operation` is opaque: only handed back to `WaitOp`. -/
abbrev Operation := Nat

/-- `computepb.InsertInstanceRequest`. -/
structure InsertInstanceRequest where
  project : String
  zone : String
  instanceResource : Instance
deriving Repr, DecidableEq

/-- `computepb.GetInstanceRequest`. -/
structure GetInstanceRequest where
  project : String
  zone : String
  instanceName : String
deriving Repr, DecidableEq

/-- `computepb.DeleteInstanceRequest`. -/
structure DeleteInstanceRequest where
  instanceName : String
  project : String
  zone : String
deriving Repr, DecidableEq

/-- The fixed outcomes of the external collaborators for one run:
`toolFetch` is `DefaultToolFetch` applied to the request's OS
type/arch/tools; `cloudConfig` and `runnerInstallScript` are the two
renderers, applied to the (option-updated) bootstrap params, the resolved
tools and the instance name; `insert`/`get`/`delete` are the remote
client calls; `waitOp` is `WaitOp` on a submitted operation. -/
structure GcpEnv where
  toolFetch : Except GoError String
  cloudConfig : BootstrapInstance → String → String → Except GoError String
  runnerInstallScript : BootstrapInstance → String → String → Except GoError String
  insert : InsertInstanceRequest → Except GoError Operation
  get : GetInstanceRequest → Except GoError Instance
  delete : DeleteInstanceRequest → Except GoError Operation
  waitOp : Operation → Option GoError

/-- `RunnerSpec.ComposeUserData`: copies the boot-debug and
disable-updates flags onto the request's user-data options, then
dispatches on OS family to the external renderer. -/
def RunnerSpec.ComposeUserData (env : GcpEnv) (r : RunnerSpec) :
    Except GoError String :=
  let bootstrapParams :=
    { r.bootstrapParams with
      userDataOptions := { enableBootDebug := r.enableBootDebug
                           disableUpdatesOnBoot := r.disableUpdates } }
  if r.bootstrapParams.osType = "linux" then
    match env.cloudConfig bootstrapParams r.tools bootstrapParams.name with
    | .error e => .error (.wrap "failed to generate userdata: " e)
    | .ok udata => .ok udata
  else if r.bootstrapParams.osType = "windows" then
    match env.runnerInstallScript bootstrapParams r.tools bootstrapParams.name with
    | .error e => .error (.wrap "failed to generate userdata: " e)
    | .ok udata => .ok udata
  else
    .error (.simple ("unsupported OS type for cloud config: " ++ r.bootstrapParams.osType))

/-- `spec.GetRunnerSpecFromBootstrapParams`: tool fetch, extra-specs
resolution, the hard defaults layered with the static config and the three
request-derived labels, then the overlay merge.  (`%s` on the tools error
renders the cause instead of wrapping it.) -/
def GetRunnerSpecFromBootstrapParams (cfg : Config) (env : GcpEnv)
    (data : BootstrapInstance) (controllerID : String) :
    Except GoError RunnerSpec :=
  match env.toolFetch with
  | .error e => .error (.simple ("failed to get tools: " ++ e.message))
  | .ok tools =>
    match newExtraSpecsFromBootstrapData data.extraSpecsBlob with
    | .error e => .error (.wrap "error loading extra specs: " e)
    | .ok extra =>
      let labels := [("garmpoolid", data.poolID),
                     ("garmcontrollerid", controllerID),
                     ("ostype", data.osType)]
      let spec : RunnerSpec :=
        { zone := cfg.zone, tools := tools, bootstrapParams := data
          networkID := cfg.networkID, subnetworkID := cfg.subnetworkID
          controllerID := controllerID, nicType := "VIRTIO_NET"
          displayDevice := false, diskSize := 127, diskType := ""
          customLabels := labels, networkTags := [], serviceAccounts := []
          sourceSnapshot := "", sshKeys := "", enableBootDebug := false
          disableUpdates := false, enableSecureBoot := false
          enableVTPM := false, enableIntegrityMonitoring := false }
      .ok (spec.MergeExtraSpecs extra)

/-! ## internal/client/gcp.go: lifecycle operations -/

/-- `client.selectStartupScript`: the OS-family-specific metadata key. -/
def selectStartupScript (ost : String) : String :=
  if ost = "windows" then "sysprep-specialize-script-ps1"
  else if ost = "linux" then "user-data"
  else ""

/-- `client.generateBootDisk`: the boot-disk descriptor.  The disk type is
set only when non-empty; the source image (initially the request's image
reference) is cleared when a source snapshot is supplied; the snapshot
field is always populated with `proto.String(snapshot)`. -/
def generateBootDisk (diskSize : Int) (image snapshot diskType : String)
    (customLabels : List (String × String)) : List AttachedDisk :=
  let ip : AttachedDiskInitializeParams :=
    { diskSizeGb := some diskSize, labels := customLabels
      sourceImage := some image, sourceSnapshot := some snapshot
      diskType := none }
  let ip := if diskType ≠ "" then { ip with diskType := some diskType } else ip
  let ip := if snapshot ≠ "" then { ip with sourceImage := none } else ip
  [{ boot := some true, initializeParams := some ip, autoDelete := some true
     architecture := none }]

/-- The `computepb.Instance` literal built by `GcpCli.CreateInstance`,
including the external-IP and Windows-SSH adjustments that follow it. -/
def buildInstance (cfg : Config) (spec : RunnerSpec) (udata name : String) :
    Instance :=
  let accessConfigs :=
    if cfg.externalIPAccess then [({ type := some "ONE_TO_ONE_NAT" } : AccessConfig)]
    else []
  let baseItems : List Items :=
    [{ key := some (selectStartupScript spec.bootstrapParams.osType), value := some udata },
     { key := some "runner_name", value := some spec.bootstrapParams.name },
     { key := some "ssh-keys", value := some spec.sshKeys }]
  let items :=
    if spec.bootstrapParams.osType = "windows" ∧ spec.sshKeys.length > 0 then
      baseItems ++
        [{ key := some "enable-windows-ssh", value := some "TRUE" },
         { key := some "sysprep-specialize-script-cmd",
           value := some "googet -noconfirm=true install google-compute-engine-ssh" }]
    else baseItems
  { name := some name
    machineType := some (GetMachineType cfg.zone spec.bootstrapParams.flavor)
    disks := generateBootDisk spec.diskSize spec.bootstrapParams.image
               spec.sourceSnapshot spec.diskType spec.customLabels
    displayDevice := some { enableDisplay := some spec.displayDevice }
    networkInterfaces :=
      [{ network := some cfg.networkID, nicType := some spec.nicType
         accessConfigs := accessConfigs, subnetwork := some spec.subnetworkID }]
    metadata := some { items := items }
    labels := spec.customLabels
    tags := some { items := spec.networkTags }
    serviceAccounts := spec.serviceAccounts
    shieldedInstanceConfig := some
      { enableSecureBoot := some spec.enableSecureBoot
        enableVtpm := some spec.enableVTPM
        enableIntegrityMonitoring := some spec.enableIntegrityMonitoring }
    status := none }

/-- `GcpCli.CreateInstance`: nil-spec guard, user-data composition,
descriptor construction, insert submission, operation wait; on success the
client-side-constructed descriptor is returned (never a re-fetched
resource). -/
def GcpCli.CreateInstance (cfg : Config) (env : GcpEnv)
    (spec : Option RunnerSpec) : Except GoError Instance :=
  match spec with
  | none => .error (.simple "invalid nil runner spec")
  | some spec =>
    match spec.ComposeUserData env with
    | .error e => .error (.wrap "failed to compose user data: " e)
    | .ok udata =>
      let name := GetInstanceName spec.bootstrapParams.name
      let inst := buildInstance cfg spec udata name
      let insertReq : InsertInstanceRequest :=
        { project := cfg.projectId, zone := cfg.zone, instanceResource := inst }
      match env.insert insertReq with
      | .error e => .error (.wrap "failed to create instance: " e)
      | .ok op =>
        match env.waitOp op with
        | some e => .error (.wrap "failed to wait for operation: " e)
        | none => .ok inst

/-- `GcpCli.GetInstance` (`%v` renders the cause instead of wrapping). -/
def GcpCli.GetInstance (cfg : Config) (env : GcpEnv)
    (instanceName : String) : Except GoError Instance :=
  let req : GetInstanceRequest :=
    { project := cfg.projectId, zone := cfg.zone
      instanceName := GetInstanceName instanceName }
  match env.get req with
  | .error e => .error (.simple ("failed to get instance: " ++ e.message))
  | .ok inst => .ok inst

/-- Is a submission error a not-found API error?  The Go code uses a
direct type assertion `err.(*apierror.APIError)` (an error wrapping an
API error does not match) and compares `HTTPCode()` with 404. -/
def isNotFound404 (e : GoError) : Bool :=
  match e with
  | .apiError code _ => code == 404
  | _ => false

/-- `GcpCli.DeleteInstance`: submit deletion by lower-cased name; a 404
API error on submission is converted to success; any other submission
error is wrapped as a delete error; a wait failure is wrapped as a wait
error. -/
def GcpCli.DeleteInstance (cfg : Config) (env : GcpEnv)
    (instanceName : String) : Option GoError :=
  let req : DeleteInstanceRequest :=
    { instanceName := GetInstanceName instanceName
      project := cfg.projectId, zone := cfg.zone }
  match env.delete req with
  | .error err =>
    if isNotFound404 err then none
    else some (.wrap "unable to delete instance: " err)
  | .ok op =>
    match env.waitOp op with
    | some err => some (.wrap "unable to wait for the delete operation: " err)
    | none => none

/-! ## provider/provider.go -/

/-- `GcpProvider.GetInstance`: remote fetch, then conversion; each failure
is wrapped with its stage prefix. -/
def GcpProvider.GetInstance (cfg : Config) (env : GcpEnv)
    (instanceName : String) : GoResult ProviderInstance :=
  match GcpCli.GetInstance cfg env instanceName with
  | .error e => .err (.wrap "error getting instance: " e)
  | .ok inst =>
    match GcpInstanceToParamsInstance (some inst) with
    | .panic m => .panic m
    | .err e => .err (.wrap "error converting instance: " e)
    | .ok p => .ok p

/-- `GcpProvider.CreateInstance`: spec resolution, client-side create; on
a create failure the provider falls back to `GetInstance` on the
bootstrap name and returns that outcome; on success it returns a record
with the literal status `running`, the name/OS type/OS arch of the
bootstrap request, and the provider id dereferenced from the constructed
descriptor's name. -/
def GcpProvider.CreateInstance (cfg : Config) (env : GcpEnv)
    (controllerID : String) (bootstrapParams : BootstrapInstance) :
    GoResult ProviderInstance :=
  match GetRunnerSpecFromBootstrapParams cfg env bootstrapParams controllerID with
  | .error e => .err (.wrap "failed to get runner spec: " e)
  | .ok spec =>
    match GcpCli.CreateInstance cfg env (some spec) with
    | .error _ => GcpProvider.GetInstance cfg env bootstrapParams.name
    | .ok inst =>
      match inst.name with
      | none => .panic "runtime error: invalid memory address or nil pointer dereference"
      | some n =>
        .ok { providerID := n
              name := spec.bootstrapParams.name
              osType := spec.bootstrapParams.osType
              osArch := spec.bootstrapParams.osArch
              status := "running" }

/-- `GcpProvider.DeleteInstance`: the client delete, wrapped with the
provider-stage prefix on failure. -/
def GcpProvider.DeleteInstance (cfg : Config) (env : GcpEnv)
    (instanceName : String) : Option GoError :=
  match GcpCli.DeleteInstance cfg env instanceName with
  | some err => some (.wrap "error deleting instance: " err)
  | none => none

/-! ## Derived notions and concrete fixtures -/

/-- A disk-source field carries a reference when it is populated with a
non-empty value (`proto.String ""` populates the field but references
nothing). -/
def refSet (o : Option String) : Prop := ∃ s, o = some s ∧ s ≠ ""

/-- A healthy remote instance, as the GET call returns it. -/
def instRunning : Instance :=
  { name := some "garm-instance", machineType := none
    disks := [{ boot := none, initializeParams := none, autoDelete := none
                architecture := some "amd64" }]
    displayDevice := none, networkInterfaces := [], metadata := none
    labels := [("ostype", "linux")], tags := none, serviceAccounts := []
    shieldedInstanceConfig := none, status := some "RUNNING" }

/-- A remote instance whose first boot disk has no architecture field. -/
def instNoArch : Instance :=
  { instRunning with
    disks := [{ boot := none, initializeParams := none, autoDelete := none
                architecture := none }] }

/-- A remote instance with an empty disk list. -/
def instNoDisks : Instance := { instRunning with disks := [] }

/-- A remote instance whose name pointer is nil. -/
def instNilName : Instance := { instRunning with name := none }

/-- A remote instance whose status pointer is nil. -/
def instNoStatus : Instance := { instRunning with status := none }

/-- A well-formed static provider configuration. -/
def cfgStd : Config :=
  { projectId := "garm-testing", zone := "europe-west1-d"
    credentialsFile := ""
    networkID := "projects/garm-testing/global/networks/garm"
    subnetworkID := "projects/garm-testing/regions/europe-west1/subnetworks/garm"
    externalIPAccess := true }

/-- A static configuration with every mandatory field empty. -/
def cfgEmpty : Config :=
  { projectId := "proj", zone := "", credentialsFile := ""
    networkID := "", subnetworkID := "", externalIPAccess := true }

/-- A Linux bootstrap request whose extra-specs blob is the schema-valid
document `\x7b\x7d` (decoding to the all-unset overlay). -/
def dataLinux : BootstrapInstance :=
  { name := "GarmInstance", flavor := "e2-medium"
    image := "projects/garm-testing/global/images/garm-image"
    osType := "linux", osArch := "amd64", poolID := "pool-1"
    extraSpecsBlob := .valid emptyExtraSpecs
    userDataOptions := { enableBootDebug := false, disableUpdatesOnBoot := false } }

/-- A run in which every external call succeeds but the insert submission
fails; the fallback GET finds a healthy instance. -/
def envInsertFails : GcpEnv :=
  { toolFetch := .ok "tools"
    cloudConfig := fun _ _ _ => .ok "udata"
    runnerInstallScript := fun _ _ _ => .ok "wudata"
    insert := fun _ => .error (.simple "quota exceeded")
    get := fun _ => .ok instRunning
    delete := fun _ => .error (.simple "unused")
    waitOp := fun _ => none }

/-- A run in which every external call succeeds. -/
def envAllOk : GcpEnv :=
  { toolFetch := .ok "tools"
    cloudConfig := fun _ _ _ => .ok "udata"
    runnerInstallScript := fun _ _ _ => .ok "wudata"
    insert := fun _ => .ok 0
    get := fun _ => .ok instRunning
    delete := fun _ => .ok 0
    waitOp := fun _ => none }

/-- A run in which the delete submission fails with a 404 API error. -/
def envDel404 : GcpEnv :=
  { envAllOk with delete := fun _ => .error (.apiError 404 "instance not found") }

/-- A run in which the delete submission fails with a non-404 error. -/
def envDelBoom : GcpEnv :=
  { envAllOk with delete := fun _ => .error (.simple "boom") }

/-- A run in which the delete submission succeeds but the wait fails. -/
def envDelWaitFail : GcpEnv :=
  { envAllOk with waitOp := fun _ => some (.simple "waitfail") }

/-- The merged runner specification the pipeline produces for `cfgStd`,
`dataLinux` and controller id `ctrl`: hard defaults layered with the
static configuration and the three request-derived labels, merged with
the all-unset overlay. -/
def specStd : RunnerSpec :=
  { zone := "europe-west1-d", tools := "tools", bootstrapParams := dataLinux
    networkID := "projects/garm-testing/global/networks/garm"
    subnetworkID := "projects/garm-testing/regions/europe-west1/subnetworks/garm"
    controllerID := "ctrl", nicType := "VIRTIO_NET", displayDevice := false
    diskSize := 127, diskType := ""
    customLabels := [("garmpoolid", "pool-1"), ("garmcontrollerid", "ctrl"),
                     ("ostype", "linux")]
    networkTags := [], serviceAccounts := [], sourceSnapshot := "", sshKeys := ""
    enableBootDebug := false, disableUpdates := false, enableSecureBoot := false
    enableVTPM := false, enableIntegrityMonitoring := false }

/-- The merged runner specification the pipeline produces for `cfgEmpty`,
`dataLinux` and an empty controller id: every mandatory field is empty. -/
def specUnvalidated : RunnerSpec :=
  { zone := "", tools := "tools", bootstrapParams := dataLinux
    networkID := "", subnetworkID := "", controllerID := ""
    nicType := "VIRTIO_NET", displayDevice := false, diskSize := 127, diskType := ""
    customLabels := [("garmpoolid", "pool-1"), ("garmcontrollerid", ""),
                     ("ostype", "linux")]
    networkTags := [], serviceAccounts := [], sourceSnapshot := "", sshKeys := ""
    enableBootDebug := false, disableUpdates := false, enableSecureBoot := false
    enableVTPM := false, enableIntegrityMonitoring := false }

/-- The boot disk built for a non-empty snapshot reference. -/
def ipSnap : AttachedDiskInitializeParams :=
  { diskSizeGb := some 127, labels := [], sourceImage := none
    sourceSnapshot := some "snap-ref", diskType := none }

/-- The attached disk wrapping `ipSnap`. -/
def diskSnap : AttachedDisk :=
  { boot := some true, initializeParams := some ipSnap, autoDelete := some true
    architecture := none }

/-- The boot-disk parameters built for an empty snapshot reference. -/
def ipImg : AttachedDiskInitializeParams :=
  { diskSizeGb := some 127, labels := [], sourceImage := some "img-ref"
    sourceSnapshot := some "", diskType := none }

/-- The attached disk wrapping `ipImg`. -/
def diskImg : AttachedDisk :=
  { boot := some true, initializeParams := some ipImg, autoDelete := some true
    architecture := none }

/-! ## Theorems -/

/-- C1: for every instance name, when the remote delete submission fails
with a not-found (HTTP 404) API error, `DeleteInstance` returns success
(no error); any other submission error is returned as a delete error, and
a failure while awaiting the delete operation is returned as a wait
error. -/
theorem deleteInstance_error_handling (cfg : Config) (env : GcpEnv)
    (name : String) :
    (∀ err, env.delete { instanceName := GetInstanceName name
                         project := cfg.projectId, zone := cfg.zone } = .error err →
       (isNotFound404 err = true → GcpCli.DeleteInstance cfg env name = none) ∧
       (isNotFound404 err = false →
          GcpCli.DeleteInstance cfg env name =
            some (.wrap "unable to delete instance: " err))) ∧
    (∀ op, env.delete { instanceName := GetInstanceName name
                        project := cfg.projectId, zone := cfg.zone } = .ok op →
       (∀ err, env.waitOp op = some err →
          GcpCli.DeleteInstance cfg env name =
            some (.wrap "unable to wait for the delete operation: " err)) ∧
       (env.waitOp op = none → GcpCli.DeleteInstance cfg env name = none)) := by
  constructor
  · intro err hd
    constructor
    · intro h404
      simp [GcpCli.DeleteInstance, hd, h404]
    · intro h404
      simp [GcpCli.DeleteInstance, hd, h404]
  · intro op hd
    constructor
    · intro err hw
      simp [GcpCli.DeleteInstance, hd, hw]
    · intro hw
      simp [GcpCli.DeleteInstance, hd, hw]

/-- C1 witness: the three delete outcomes, at concrete runs. -/
theorem deleteInstance_error_handling_check :
    GcpCli.DeleteInstance cfgStd envDel404 "GarmInstance" = none ∧
    GcpCli.DeleteInstance cfgStd envDelBoom "GarmInstance" =
      some (.wrap "unable to delete instance: " (.simple "boom")) ∧
    GcpCli.DeleteInstance cfgStd envDelWaitFail "GarmInstance" =
      some (.wrap "unable to wait for the delete operation: " (.simple "waitfail")) :=
  ⟨((deleteInstance_error_handling cfgStd envDel404 "GarmInstance").1
      (.apiError 404 "instance not found") rfl).1 rfl,
   ((deleteInstance_error_handling cfgStd envDelBoom "GarmInstance").1
      (.simple "boom") rfl).2 rfl,
   ((deleteInstance_error_handling cfgStd envDelWaitFail "GarmInstance").2
      0 rfl).1 (.simple "waitfail") rfl⟩

/-- C4: the status normalization is a total deterministic function of the
remote status string: `RUNNING`, `STAGING`, `PROVISIONING` map to
`running`; `STOPPING`, `TERMINATED`, `SUSPENDED` map to `stopped`; every
other value — including an absent status, which the proto getter reads as
`""` — maps to `unknown`; every successful conversion carries exactly
this normalization of the instance's status. -/
theorem status_normalization_total (inst : Instance) :
    (∀ p, GcpInstanceToParamsInstance (some inst) = .ok p →
       p.status = mapStatus (getStatus inst)) ∧
    (inst.status = none → getStatus inst = "") ∧
    (∀ s : String, mapStatus s =
       if s = "RUNNING" ∨ s = "STAGING" ∨ s = "PROVISIONING" then "running"
       else if s = "STOPPING" ∨ s = "TERMINATED" ∨ s = "SUSPENDED" then "stopped"
       else "unknown") := by
  refine ⟨?_, ?_, ?_⟩
  · intro p h
    simp only [GcpInstanceToParamsInstance] at h
    split at h
    · exact absurd h (by simp)
    · split at h
      · exact absurd h (by simp)
      · split at h
        · exact absurd h (by simp)
        · injection h with h; subst h; rfl
  · intro h; simp [getStatus, h]
  · intro s
    simp only [mapStatus]
    split_ifs with h1 h2 <;> simp_all [Bool.or_eq_true, beq_iff_eq]

/-- C4 witness: the normalization at concrete statuses — `RUNNING` on a
healthy instance, the unrecognized `WEIRD`, and an absent status. -/
theorem status_normalization_total_check :
    (∀ p, GcpInstanceToParamsInstance (some instRunning) = .ok p →
       p.status = mapStatus (getStatus instRunning)) ∧
    mapStatus "WEIRD" = "unknown" ∧
    getStatus instNoStatus = "" ∧
    mapStatus (getStatus instNoStatus) = "unknown" :=
  ⟨(status_normalization_total instRunning).1,
   ((status_normalization_total instRunning).2.2 "WEIRD").trans (by decide),
   (status_normalization_total instNoStatus).2.1 rfl,
   ((status_normalization_total instNoStatus).2.2 (getStatus instNoStatus)).trans
     (by decide)⟩

/-- C5: `GcpInstanceToParamsInstance` does return errors for a nil
instance and a nil name, but when the architecture field on the first
boot disk is absent — or the disk list is empty — it crashes (nil-pointer
dereference / index out of range on `*gcpInstance.Disks[0].Architecture`)
instead of failing with an error. -/
theorem conversion_crashes_on_missing_architecture :
    GcpInstanceToParamsInstance (some instNoArch) =
      .panic "runtime error: invalid memory address or nil pointer dereference" ∧
    GcpInstanceToParamsInstance (some instNoDisks) =
      .panic "runtime error: index out of range" ∧
    GcpInstanceToParamsInstance none = .err (.simple "instance ID is nil") ∧
    GcpInstanceToParamsInstance (some instNilName) =
      .err (.simple "instance name is nil") :=
  ⟨rfl, rfl, rfl, rfl⟩

/-- C6: resolving a zero-length extra-specs blob fails — the schema check
runs on the raw blob before the emptiness guard and JSON-decoding an
empty document fails — while the minimal schema-valid document succeeds
with the all-unset overlay. -/
theorem emptyBlob_resolution_fails :
    newExtraSpecsFromBootstrapData RawBlob.empty =
      .error (.wrap "failed to validate extra specs: "
        (.wrap "failed to validate schema: " (.simple "EOF"))) ∧
    newExtraSpecsFromBootstrapData (RawBlob.valid emptyExtraSpecs) =
      .ok emptyExtraSpecs :=
  ⟨rfl, rfl⟩

/-- C7: merging the all-unset overlay into any runner specification is
the identity: every field keeps its pre-merge value. -/
theorem mergeExtraSpecs_empty_overlay_identity (r : RunnerSpec) :
    r.MergeExtraSpecs emptyExtraSpecs = r := by
  simp [RunnerSpec.MergeExtraSpecs, emptyExtraSpecs]

/-- C8: the generated boot disk uses the snapshot reference (and clears
the source image) exactly when the snapshot reference is non-empty, and
the bootstrap request's image reference otherwise; the two fields never
both carry a reference. -/
theorem generateBootDisk_source_exclusivity (diskSize : Int)
    (image snapshot diskType : String) (labels : List (String × String))
    (d : AttachedDisk) (ip : AttachedDiskInitializeParams)
    (hd : generateBootDisk diskSize image snapshot diskType labels = [d])
    (hip : d.initializeParams = some ip) :
    (snapshot ≠ "" → ip.sourceImage = none ∧ ip.sourceSnapshot = some snapshot) ∧
    (snapshot = "" → ip.sourceImage = some image ∧ ip.sourceSnapshot = some "") ∧
    ¬(refSet ip.sourceImage ∧ refSet ip.sourceSnapshot) := by
  by_cases hs : snapshot = "" <;> by_cases ht : diskType = "" <;>
    · simp only [generateBootDisk, hs, ht] at hd
      simp at hd
      subst hd
      simp at hip
      subst hip
      refine ⟨by simp_all, by simp_all, ?_⟩
      rintro ⟨⟨s1, h1, hn1⟩, ⟨s2, h2, hn2⟩⟩
      simp_all [refSet]

/-- C8 witness: the two branches at concrete references. -/
theorem generateBootDisk_source_exclusivity_check :
    (ipSnap.sourceImage = none ∧ ipSnap.sourceSnapshot = some "snap-ref") ∧
    (ipImg.sourceImage = some "img-ref" ∧ ipImg.sourceSnapshot = some "") :=
  ⟨(generateBootDisk_source_exclusivity 127 "img-ref" "snap-ref" "" []
      diskSnap ipSnap rfl rfl).1 (by decide),
   (generateBootDisk_source_exclusivity 127 "img-ref" "" "" []
      diskImg ipImg rfl rfl).2.1 rfl⟩

/-- C9 counterexample: merging the two-entry SSH-key overlay into the
pipeline's merged specification (whose SSH-key blob starts empty) yields
`"\nk1\nk2"` — a leading newline — not the claimed `"k1\nk2"`. -/
theorem sshKeys_merge_leading_newline :
    (specStd.MergeExtraSpecs { emptyExtraSpecs with sshKeys := ["k1", "k2"] }).sshKeys
      = "\nk1\nk2" ∧
    (specStd.MergeExtraSpecs { emptyExtraSpecs with sshKeys := ["k1", "k2"] }).sshKeys
      ≠ "k1\nk2" := by
  decide

/-- C9 amended: merging a two-entry SSH-key overlay appends, for each
entry in order, a newline followed by the entry onto the prior blob; on
the empty default blob this leaves a leading newline. -/
theorem sshKeys_merge_appends_newline_prefixed_entries (r : RunnerSpec)
    (k1 k2 : String) :
    (r.MergeExtraSpecs { emptyExtraSpecs with sshKeys := [k1, k2] }).sshKeys
      = r.sshKeys ++ "\n" ++ k1 ++ "\n" ++ k2 := by
  simp [RunnerSpec.MergeExtraSpecs, emptyExtraSpecs]

/-- C2 counterexample: a run in which the instance-creation submission
fails with a non-404 remote error, yet the provider-level operation
returns success — the create error is recovered through a fallback GET,
not propagated. -/
theorem createInstance_submission_error_recovered :
    GetRunnerSpecFromBootstrapParams cfgStd envInsertFails dataLinux "ctrl"
      = .ok specStd ∧
    GcpCli.CreateInstance cfgStd envInsertFails (some specStd) =
      .error (.wrap "failed to create instance: " (.simple "quota exceeded")) ∧
    GcpProvider.CreateInstance cfgStd envInsertFails "ctrl" dataLinux =
      .ok { providerID := "garm-instance", name := "garm-instance"
            osType := "linux", osArch := "amd64", status := "running" } :=
  ⟨rfl, rfl, rfl⟩

/-- C2 amended: delete-on-absent (404) is converted to success, and a
failed client-side instance creation is also recovered at the provider
level: the provider falls back to a fresh `GetInstance` on the bootstrap
name and returns that outcome, never the creation error itself. -/
theorem createInstance_error_falls_back_to_get (cfg : Config) (env : GcpEnv)
    (controllerID : String) (data : BootstrapInstance) (spec : RunnerSpec)
    (e : GoError)
    (hs : GetRunnerSpecFromBootstrapParams cfg env data controllerID = .ok spec)
    (hc : GcpCli.CreateInstance cfg env (some spec) = .error e) :
    GcpProvider.CreateInstance cfg env controllerID data =
      GcpProvider.GetInstance cfg env data.name := by
  simp [GcpProvider.CreateInstance, hs, hc]

/-- C2 amended witness: the fallback at the concrete failing run. -/
theorem createInstance_error_falls_back_to_get_check :
    GcpProvider.CreateInstance cfgStd envInsertFails "ctrl" dataLinux =
      GcpProvider.GetInstance cfgStd envInsertFails "GarmInstance" :=
  createInstance_error_falls_back_to_get cfgStd envInsertFails "ctrl" dataLinux
    specStd (.wrap "failed to create instance: " (.simple "quota exceeded"))
    rfl rfl

/-- C3 counterexample: a run of the create pipeline in which the merged
specification has empty zone, network id, subnetwork id and controller id
(so the mandatory-field validator rejects it), yet descriptor building is
reached, the descriptor is submitted, and the create succeeds — the
validator is never invoked. -/
theorem create_pipeline_skips_spec_validation :
    GetRunnerSpecFromBootstrapParams cfgEmpty envAllOk dataLinux ""
      = .ok specUnvalidated ∧
    specUnvalidated.Validate = some (.simple "missing zone") ∧
    GcpCli.CreateInstance cfgEmpty envAllOk (some specUnvalidated) =
      .ok (buildInstance cfgEmpty specUnvalidated "udata" "garminstance") ∧
    GcpProvider.CreateInstance cfgEmpty envAllOk "" dataLinux =
      .ok { providerID := "garminstance", name := "GarmInstance"
            osType := "linux", osArch := "amd64", status := "running" } :=
  ⟨rfl, rfl, rfl, rfl⟩

/-- C3 amended: the create pipeline never invokes the mandatory-field
validator on the merged specification: the client create builds and
submits the instance descriptor for a specification the validator
rejects, succeeding whenever user-data composition, the insert submission
and the operation wait succeed. -/
theorem clientCreate_ignores_mandatory_validation (cfg : Config) (env : GcpEnv)
    (spec : RunnerSpec) (e : GoError) (udata : String) (op : Operation)
    (_hv : spec.Validate = some e)
    (hu : spec.ComposeUserData env = .ok udata)
    (hins : env.insert
      { project := cfg.projectId, zone := cfg.zone,
        instanceResource := buildInstance cfg spec udata
          (GetInstanceName spec.bootstrapParams.name) } = .ok op)
    (hw : env.waitOp op = none) :
    GcpCli.CreateInstance cfg env (some spec) =
      .ok (buildInstance cfg spec udata
        (GetInstanceName spec.bootstrapParams.name)) := by
  simp [GcpCli.CreateInstance, hu, hins, hw]

/-- C3 amended witness: the invalid specification flowing through to a
successful create, at the concrete run. -/
theorem clientCreate_ignores_mandatory_validation_check :
    GcpCli.CreateInstance cfgEmpty envAllOk (some specUnvalidated) =
      .ok (buildInstance cfgEmpty specUnvalidated "udata"
        (GetInstanceName specUnvalidated.bootstrapParams.name)) :=
  clientCreate_ignores_mandatory_validation cfgEmpty envAllOk specUnvalidated
    (.simple "missing zone") "udata" 0 rfl rfl rfl rfl

/-- C10: whenever the client-side creation succeeds, the provider-level
`CreateInstance` returns a record with the literal status `running`,
name, OS type and OS architecture copied from the bootstrap request, and
provider id taken from the constructed descriptor's (lower-cased) name;
the remote state is never re-fetched on success (the result is
independent of the GET collaborator). -/
theorem providerCreate_success_record (cfg : Config) (env : GcpEnv)
    (controllerID : String) (data : BootstrapInstance) (spec : RunnerSpec)
    (inst : Instance)
    (hs : GetRunnerSpecFromBootstrapParams cfg env data controllerID = .ok spec)
    (hc : GcpCli.CreateInstance cfg env (some spec) = .ok inst) :
    inst.name = some (GetInstanceName data.name) ∧
    GcpProvider.CreateInstance cfg env controllerID data =
      .ok { providerID := GetInstanceName data.name, name := data.name
            osType := data.osType, osArch := data.osArch, status := "running" } ∧
    ∀ g, GcpProvider.CreateInstance cfg { env with get := g } controllerID data =
      GcpProvider.CreateInstance cfg env controllerID data := by
  have hbp : spec.bootstrapParams = data := by
    simp only [GetRunnerSpecFromBootstrapParams] at hs
    split at hs
    · exact absurd hs (by simp)
    · split at hs
      · exact absurd hs (by simp)
      · injection hs with hs; subst hs; rfl
  have hname : inst.name = some (GetInstanceName spec.bootstrapParams.name) := by
    simp only [GcpCli.CreateInstance] at hc
    split at hc
    · exact absurd hc (by simp)
    · split at hc
      · exact absurd hc (by simp)
      · split at hc
        · exact absurd hc (by simp)
        · injection hc with hc; subst hc; rfl
  have key : ∀ (env2 : GcpEnv),
      GetRunnerSpecFromBootstrapParams cfg env2 data controllerID = .ok spec →
      GcpCli.CreateInstance cfg env2 (some spec) = .ok inst →
      GcpProvider.CreateInstance cfg env2 controllerID data =
        .ok { providerID := GetInstanceName data.name, name := data.name
              osType := data.osType, osArch := data.osArch, status := "running" } := by
    intro env2 hs2 hc2
    simp [GcpProvider.CreateInstance, hs2, hc2, hname, hbp]
  refine ⟨hbp ▸ hname, key env hs hc, ?_⟩
  intro g
  have hs' : GetRunnerSpecFromBootstrapParams cfg { env with get := g }
      data controllerID = .ok spec := hs
  have hc' : GcpCli.CreateInstance cfg { env with get := g } (some spec)
      = .ok inst := hc
  rw [key { env with get := g } hs' hc', key env hs hc]

/-- C10 witness: the success record at a concrete all-succeeding run. -/
theorem providerCreate_success_record_check :
    GcpProvider.CreateInstance cfgStd envAllOk "ctrl" dataLinux =
      .ok { providerID := GetInstanceName dataLinux.name, name := dataLinux.name
            osType := dataLinux.osType, osArch := dataLinux.osArch
            status := "running" } :=
  (providerCreate_success_record cfgStd envAllOk "ctrl" dataLinux specStd
    (buildInstance cfgStd specStd "udata" "garminstance") rfl rfl).2.1

end GarmGcp
